import Mathlib

/-!
Verification of the `stl-bounding-box` Go repository (`stl.go`): a
format-detecting dual-mode STL parser with streaming bounding-box
accumulation.  The Go program is shallowly embedded: byte streams are
`List Nat` (each element a byte value), `float32`/`float64` values are
modelled as the exactly representable rational numbers ℚ together with
explicit IEEE-754 round-to-nearest-even rounding functions applied
wherever the Go code performs a floating-point operation or conversion,
and fallible functions return `Except String`.  The model covers finite
floating-point values; infinities, NaN (binary exponent field 255) and
overflow to infinity are outside the modelled range (no claim below
exercises them).
-/

/-! ## Exact model of IEEE-754 binary32 / binary64 rounding on ℚ -/

/-- Fuel-driven floor of log₂ on naturals: `log2fuel f n` computes
`⌊log₂ n⌋` for `1 ≤ n ≤ 2 ^ f` (and `0` for `n ≤ 1`). -/
def log2fuel : Nat → Nat → Nat
  | 0, _ => 0
  | f + 1, n => if n ≤ 1 then 0 else 1 + log2fuel f (n / 2)

/-- `⌊log₂ n⌋` for natural `n ≥ 1`. -/
def natLog2 (n : Nat) : Nat := log2fuel n n

/-- Fuel-driven ceiling log: `clog2fuel f a b` is the least `k` with
`a ≤ b * 2 ^ k`, provided enough fuel (`f ≥ a` suffices for `b ≥ 1`). -/
def clog2fuel : Nat → Nat → Nat → Nat
  | 0, _, _ => 0
  | f + 1, a, b => if a ≤ b then 0 else 1 + clog2fuel f a (2 * b)

/-- `⌊log₂ q⌋` for a positive rational `q`: the unique `e : ℤ` with
`2 ^ e ≤ q < 2 ^ (e + 1)` (junk value on `q ≤ 0`). -/
def floorLog2 (q : ℚ) : ℤ :=
  if 1 ≤ q then Int.ofNat (natLog2 (q.num.toNat / q.den))
  else -(Int.ofNat (clog2fuel q.den q.den q.num.toNat))

/-- `2 ^ e` on ℚ for an integer exponent, by explicit cases (kept
elementary so that concrete evaluation reduces). -/
def qpow2 : ℤ → ℚ
  | Int.ofNat n => (2 : ℚ) ^ n
  | Int.negSucc n => 1 / (2 : ℚ) ^ (n + 1)

/-- Round a rational to the nearest integer, ties to even. -/
def rne (x : ℚ) : ℤ :=
  let f := Rat.floor x
  let r := x - f
  if r < 1 / 2 then f
  else if 1 / 2 < r then f + 1
  else if f % 2 = 0 then f else f + 1

/-- Round-to-nearest-even with `prec + 1` significand bits and minimal
(subnormal) exponent `emin`: the shared core of the binary32 and
binary64 rounding modes.  Unit in the last place is
`2 ^ max (⌊log₂ |q|⌋ - prec) emin`. -/
def roundQ (prec : ℕ) (emin : ℤ) (q : ℚ) : ℚ :=
  if q = 0 then 0
  else
    let e := max (floorLog2 |q| - prec) emin
    (rne (q * qpow2 (-e)) : ℚ) * qpow2 e

/-- Rounding a real (rational) value to `float32`, as performed by Go's
`float32(·)` conversion and every `float32` arithmetic operation. -/
def roundF32 (q : ℚ) : ℚ := roundQ 23 (-149) q

/-- Rounding a real (rational) value to `float64`, as performed by Go's
`float64` arithmetic (e.g. inside `strconv.ParseFloat`). -/
def roundF64 (q : ℚ) : ℚ := roundQ 52 (-1074) q

/-- `math.MaxFloat32`: the largest finite binary32 value,
`(2 ^ 24 - 1) * 2 ^ 104`. -/
def maxFloat32 : ℚ := (2 ^ 24 - 1) * 2 ^ 104

/-! ## Data model (`stl.go` lines 16-38) -/

/-- `r3.Vec`: a 3-component `float64` coordinate. -/
structure Vec3 where
  X : ℚ
  Y : ℚ
  Z : ℚ
deriving DecidableEq, Repr

/-- Go `Triangle`: a normal vector plus exactly three vertices
(`Vertices [3]r3.Vec` modelled as an ordered triple). -/
structure Triangle where
  Normal : Vec3
  Vertices : Vec3 × Vec3 × Vec3
deriving DecidableEq, Repr

/-- Go `BoundingBox`: six `float32` bounds plus a derived `r3.Vec`
center. -/
structure BoundingBox where
  MinX : ℚ
  MinY : ℚ
  MinZ : ℚ
  MaxX : ℚ
  MaxY : ℚ
  MaxZ : ℚ
  Center : Vec3
deriving DecidableEq, Repr

/-- `Dimensions` (`stl.go` lines 30-32): three `float32`
subtractions. -/
def BoundingBox.Dimensions (bb : BoundingBox) : ℚ × ℚ × ℚ :=
  (roundF32 (bb.MaxX - bb.MinX), roundF32 (bb.MaxY - bb.MinY),
    roundF32 (bb.MaxZ - bb.MinZ))

/-- `Volume` (`stl.go` lines 35-38): `w * h * d` in `float32`,
left-associated, each product rounded. -/
def BoundingBox.Volume (bb : BoundingBox) : ℚ :=
  roundF32 (roundF32 (bb.Dimensions.1 * bb.Dimensions.2.1) * bb.Dimensions.2.2)

/-- The accumulator as initialised in both decoders (`stl.go` lines
94-97 and 134-137): sentinel bounds `±math.MaxFloat32`, zero-valued
center (Go zero value of `r3.Vec`). -/
def initBBox : BoundingBox :=
  { MinX := maxFloat32, MinY := maxFloat32, MinZ := maxFloat32,
    MaxX := -maxFloat32, MaxY := -maxFloat32, MaxZ := -maxFloat32,
    Center := ⟨0, 0, 0⟩ }

/-- One iteration of the loop body of `updateBoundingBox` (`stl.go`
lines 212-234): narrow the `float64` coordinates to `float32`, then
widen each bound that the vertex lies strictly outside of.  This is the
value semantics: ℚ identifies `-0.0` and `+0.0`; the sign of a zero
bound is tracked by the bit-level model further below. -/
def foldVertex (bb : BoundingBox) (v : Vec3) : BoundingBox :=
  let x := roundF32 v.X
  let y := roundF32 v.Y
  let z := roundF32 v.Z
  { bb with
    MinX := if x < bb.MinX then x else bb.MinX,
    MinY := if y < bb.MinY then y else bb.MinY,
    MinZ := if z < bb.MinZ then z else bb.MinZ,
    MaxX := if x > bb.MaxX then x else bb.MaxX,
    MaxY := if y > bb.MaxY then y else bb.MaxY,
    MaxZ := if z > bb.MaxZ then z else bb.MaxZ }

/-- `updateBoundingBox` (`stl.go` lines 211-235): fold every vertex of
the slice into the box. -/
def updateBoundingBox (bb : BoundingBox) (vertices : List Vec3) : BoundingBox :=
  vertices.foldl foldVertex bb

/-- The center computation shared by both parsers (`stl.go` lines
121-126 and 200-205): `(Min + Max) / 2` evaluated in `float32`
arithmetic (one rounded addition, one rounded halving) and then widened
exactly to `float64`. -/
def setCenter (bb : BoundingBox) : BoundingBox :=
  { bb with Center :=
      ⟨roundF32 (roundF32 (bb.MinX + bb.MaxX) / 2),
        roundF32 (roundF32 (bb.MinY + bb.MaxY) / 2),
        roundF32 (roundF32 (bb.MinZ + bb.MaxZ) / 2)⟩ }

/-! ## Binary decoder (`stl.go` lines 74-129) -/

/-- The error text of the `io` error wrapped by `%w` when a fixed-size
read (`io.ReadFull`, or `binary.Read` of a fixed-size value) hits end of
input after `len` available bytes: `io.EOF` prints `EOF` when nothing
was read, `io.ErrUnexpectedEOF` prints `unexpected EOF` on a partial
read. -/
def eofMsg (len : Nat) : String :=
  if len = 0 then "EOF" else "unexpected EOF"

/-- Little-endian 32-bit word from four bytes. -/
def le32 (b0 b1 b2 b3 : Nat) : Nat :=
  b0 + 256 * b1 + 65536 * b2 + 16777216 * b3

/-- Value of an IEEE-754 binary32 bit pattern (finite interpretation:
an exponent field of 255, i.e. infinity/NaN, is outside the modelled
range and is given the same formula as a junk value). -/
def f32val (bits : Nat) : ℚ :=
  let s : ℕ := bits / 2 ^ 31
  let e : ℕ := bits / 2 ^ 23 % 2 ^ 8
  let m : ℕ := bits % 2 ^ 23
  let mag : ℚ :=
    if e = 0 then (m : ℚ) * qpow2 (-149 : ℤ)
    else ((2 ^ 23 + m : ℕ) : ℚ) * qpow2 ((e : ℤ) - 150)
  if s = 1 then -mag else mag

/-- The binary32 value starting at offset `i` of a byte list
(little-endian), as decoded by `binary.Read` with
`binary.LittleEndian`. -/
def f32At (bs : List Nat) (i : Nat) : ℚ :=
  f32val (le32 (bs.getD i 0) (bs.getD (i + 1) 0) (bs.getD (i + 2) 0)
    (bs.getD (i + 3) 0))

/-- The three vertices of one 48-byte `binaryTriangle` record (12 bytes
normal, then 3 × 12 bytes vertices), widened to `float64` exactly, as
built at `stl.go` lines 106-110. -/
def binVertices (bs : List Nat) : List Vec3 :=
  [⟨f32At bs 12, f32At bs 16, f32At bs 20⟩,
    ⟨f32At bs 24, f32At bs 28, f32At bs 32⟩,
    ⟨f32At bs 36, f32At bs 40, f32At bs 44⟩]

/-- The triangle loop of `parseBinary` (`stl.go` lines 99-119).
`binLoop i remaining bytes bbox` processes `remaining` more records
starting at triangle index `i`; it returns the accumulator state at
loop exit (the Go code mutates `*bbox` in place, so on an error the
already-applied folds are still present in that state) together with
the error, if any.  Each iteration: read 48 bytes for the
`binaryTriangle` (all-or-nothing, error `error reading triangle i`),
fold its three vertices, then read the 2-byte attribute byte count
(error `error reading attribute byte count`). -/
def binLoop : Nat → Nat → List Nat → BoundingBox → BoundingBox × Option String
  | _, 0, _, bbox => (bbox, none)
  | i, remaining + 1, bytes, bbox =>
    if bytes.length < 48 then
      (bbox, some ("error reading triangle " ++ Nat.repr i ++ ": " ++
        eofMsg bytes.length))
    else
      let bbox2 := updateBoundingBox bbox (binVertices (bytes.take 48))
      let rest := bytes.drop 48
      if rest.length < 2 then
        (bbox2, some ("error reading attribute byte count: " ++ eofMsg rest.length))
      else
        binLoop (i + 1) remaining (rest.drop 2) bbox2

/-- `parseBinary` (`stl.go` lines 81-129): skip the 80-byte header,
read the little-endian `uint32` triangle count, run the triangle loop
from the sentinel-initialised accumulator, then compute the center.
There is no emptiness check: a zero triangle count yields the box with
sentinel bounds. -/
def parseBinary (input : List Nat) : Except String BoundingBox :=
  if input.length < 80 then
    Except.error ("error reading header: " ++ eofMsg input.length)
  else
    let rest := input.drop 80
    if rest.length < 4 then
      Except.error ("error reading number of triangles: " ++ eofMsg rest.length)
    else
      let numTriangles := le32 (rest.getD 0 0) (rest.getD 1 0) (rest.getD 2 0)
        (rest.getD 3 0)
      match binLoop 0 numTriangles (rest.drop 4) initBBox with
      | (_, some e) => Except.error e
      | (bbox, none) => Except.ok (setCenter bbox)

/-! ## ASCII decoder (`stl.go` lines 131-208)

The byte stream is handed to `bufio.Scanner`, which splits it into
lines; the model covers ASCII byte streams (each byte is one character,
and the ASCII whitespace characters are the ones Go's `unicode.IsSpace`
recognises in that range: tab, newline, vertical tab, form feed,
carriage return, space). -/

/-- The ASCII whitespace characters recognised by `unicode.IsSpace`. -/
def isWSChar (c : Char) : Bool :=
  c.toNat = 9 || c.toNat = 10 || c.toNat = 11 || c.toNat = 12 ||
    c.toNat = 13 || c.toNat = 32

/-- `strings.TrimSpace`: drop leading and trailing whitespace. -/
def goTrimSpace (s : String) : String :=
  ⟨((s.data.dropWhile isWSChar).reverse.dropWhile isWSChar).reverse⟩

/-- Helper of `goFields`: split a character list on whitespace,
accumulating the current (reversed) field. -/
def splitWsAux : List Char → List Char → List (List Char)
  | [], cur => if cur.isEmpty then [] else [cur.reverse]
  | c :: rest, cur =>
    if isWSChar c then
      if cur.isEmpty then splitWsAux rest [] else cur.reverse :: splitWsAux rest []
    else splitWsAux rest (c :: cur)

/-- `strings.Fields`: the maximal runs of non-whitespace characters. -/
def goFields (s : String) : List String :=
  (splitWsAux s.data []).map fun l => ⟨l⟩

/-- Digit-run value in base 10 (`'0'` has code 48). -/
def digitsVal (ds : List Char) : Nat :=
  ds.foldl (fun acc c => 10 * acc + (c.toNat - 48)) 0

/-- `strconv.ParseFloat(s, 64)` on the decimal forms
`[+-]digits[.digits][(e|E)[+-]digits]` (at least one digit in the
mantissa, no trailing garbage): the exact decimal value rounded to
binary64.  Go's further accepted forms (hex mantissas, `inf`, `nan`,
underscore separators) are outside the modelled range; `none` means the
parse fails with `invalid syntax`. -/
def parseGoFloat (s : String) : Option ℚ :=
  let cs := s.data
  let sgn : ℚ := if cs.head? = some '-' then -1 else 1
  let cs := if cs.head? = some '-' || cs.head? = some '+' then cs.tail else cs
  let ip := cs.takeWhile Char.isDigit
  let cs := cs.dropWhile Char.isDigit
  let hasDot := cs.head? = some '.'
  let fp := (if hasDot then cs.tail else []).takeWhile Char.isDigit
  let cs := if hasDot then (cs.tail.dropWhile Char.isDigit) else cs
  if ip.isEmpty && fp.isEmpty then none
  else
    let mant : ℚ := (digitsVal ip : ℚ) + (digitsVal fp : ℚ) / (10 : ℚ) ^ fp.length
    match cs with
    | [] => some (roundF64 (sgn * mant))
    | e :: cs =>
      if e = 'e' || e = 'E' then
        let esgn : ℤ := if cs.head? = some '-' then -1 else 1
        let cs := if cs.head? = some '-' || cs.head? = some '+' then cs.tail else cs
        let ed := cs.takeWhile Char.isDigit
        if ed.isEmpty || !(cs.dropWhile Char.isDigit).isEmpty then none
        else
          let ex : ℤ := esgn * digitsVal ed
          some (roundF64 (sgn * mant *
            (if 0 ≤ ex then (10 : ℚ) ^ ex.toNat else 1 / (10 : ℚ) ^ (-ex).toNat)))
      else none

/-- The mutable scan state of `parseASCII` (`stl.go` lines 134-141):
the accumulator, the three-slot `currentTriangle` array, the number of
vertices collected in the open facet, and the in-facet flag. -/
structure AsciiState where
  bbox : BoundingBox
  currentTriangle : Vec3 × Vec3 × Vec3
  vertexIndex : Nat
  inFacet : Bool
deriving DecidableEq, Repr

/-- The initial scan state: sentinel accumulator, zero-valued triangle
slots (Go zero values), no vertices, not inside a facet. -/
def initAsciiState : AsciiState :=
  { bbox := initBBox, currentTriangle := (⟨0, 0, 0⟩, ⟨0, 0, 0⟩, ⟨0, 0, 0⟩),
    vertexIndex := 0, inFacet := false }

/-- Write slot `k` of the `currentTriangle` array (only called with
`k < 3`). -/
def setSlot (t : Vec3 × Vec3 × Vec3) (k : Nat) (v : Vec3) : Vec3 × Vec3 × Vec3 :=
  match k with
  | 0 => (v, t.2.1, t.2.2)
  | 1 => (t.1, v, t.2.2)
  | _ => (t.1, t.2.1, v)

/-- One iteration of the scan loop of `parseASCII` (`stl.go` lines
143-189): trim the line, split it into fields, and dispatch on the
first field (`facet` / `vertex` / `endfacet`; anything else, including
a blank line, is ignored). -/
def asciiStep (st : AsciiState) (rawLine : String) : Except String AsciiState :=
  let line := goTrimSpace rawLine
  let fields := goFields line
  match fields.head? with
  | none => Except.ok st
  | some f =>
    if f = "facet" then
      Except.ok { st with inFacet := true, vertexIndex := 0 }
    else if f = "vertex" then
      if !st.inFacet || fields.length < 4 then
        Except.error ("invalid vertex line: " ++ line)
      else if st.vertexIndex ≥ 3 then
        Except.error "too many vertices in facet"
      else
        match parseGoFloat (fields.getD 1 "") with
        | none => Except.error ("error parsing x coordinate: strconv.ParseFloat: parsing " ++
            fields.getD 1 "" ++ ": invalid syntax")
        | some x =>
          match parseGoFloat (fields.getD 2 "") with
          | none => Except.error ("error parsing y coordinate: strconv.ParseFloat: parsing " ++
              fields.getD 2 "" ++ ": invalid syntax")
          | some y =>
            match parseGoFloat (fields.getD 3 "") with
            | none => Except.error ("error parsing z coordinate: strconv.ParseFloat: parsing " ++
                fields.getD 3 "" ++ ": invalid syntax")
            | some z =>
              Except.ok { st with
                currentTriangle := setSlot st.currentTriangle st.vertexIndex ⟨x, y, z⟩,
                vertexIndex := st.vertexIndex + 1 }
    else if f = "endfacet" then
      if st.vertexIndex ≠ 3 then
        Except.error ("incomplete triangle, got " ++ Nat.repr st.vertexIndex ++ " vertices")
      else
        Except.ok { st with
          bbox := updateBoundingBox st.bbox
            [st.currentTriangle.1, st.currentTriangle.2.1, st.currentTriangle.2.2],
          inFacet := false }
    else Except.ok st

/-- The whole scan: process the lines in order, stopping at the first
error. -/
def asciiScan (lines : List String) : Except String AsciiState :=
  lines.foldlM asciiStep initAsciiState

/-- `parseASCII` (`stl.go` lines 132-208): scan all lines, fail with
the no-triangles error if `MinX` is still the sentinel, otherwise
compute the center. -/
def parseASCII (lines : List String) : Except String BoundingBox :=
  match asciiScan lines with
  | Except.error e => Except.error e
  | Except.ok st =>
    if st.bbox.MinX = maxFloat32 then
      Except.error "no triangles found in STL file"
    else
      Except.ok (setCenter st.bbox)

/-! ## Format sniffer and entry point (`stl.go` lines 52-72) -/

/-- The ASCII whitespace bytes trimmed by `strings.TrimSpace` (the
model covers ASCII byte streams, see above). -/
def isWSByte (b : Nat) : Bool :=
  b = 9 || b = 10 || b = 11 || b = 12 || b = 13 || b = 32

/-- `strings.TrimSpace` on the raw header bytes. -/
def trimSpaceBytes (bs : List Nat) : List Nat :=
  ((bs.dropWhile isWSByte).reverse.dropWhile isWSByte).reverse

/-- The byte sequence of the literal `solid`. -/
def solidBytes : List Nat := [115, 111, 108, 105, 100]

/-- The classification test of `CalculateBoundingBox` (`stl.go` line
65): the header bytes, trimmed of whitespace, start with `solid`. -/
def headerLooksAscii (header : List Nat) : Bool :=
  solidBytes.isPrefixOf (trimSpaceBytes header)

/-- A forward-only byte source: the bytes it will deliver, followed by
either clean end-of-input (`err = none`) or a stream error raised after
the last byte (`err = some e`). -/
structure ByteStream where
  bytes : List Nat
  err : Option String
deriving DecidableEq, Repr

/-- The header read of `CalculateBoundingBox` (`stl.go` lines 56-61):
`io.ReadFull` into an 80-byte buffer, tolerating only
`io.ErrUnexpectedEOF` (a partial read ended by clean end-of-input).  A
completely empty stream makes `io.ReadFull` return `io.EOF`, which is
not tolerated; any other underlying stream error is surfaced.  On
success the result is the `n` bytes actually read. -/
def readHeader (s : ByteStream) : Except String (List Nat) :=
  if 80 ≤ s.bytes.length then Except.ok (s.bytes.take 80)
  else
    match s.err with
    | some e => Except.error ("error reading header: " ++ e)
    | none =>
      if s.bytes.length = 0 then Except.error ("error reading header: " ++ "EOF")
      else Except.ok s.bytes

/-- A line-splitting helper mirroring `bufio.ScanLines`: split the byte
stream at each newline byte (10); a final run of bytes not ended by a
newline also forms a line; each line then has a single trailing
carriage return (13) stripped.  `acc` is the current line, reversed. -/
def scanLinesAux : List Nat → List Nat → List (List Nat)
  | [], acc => if acc.isEmpty then [] else [acc.reverse]
  | 10 :: rest, acc => acc.reverse :: scanLinesAux rest []
  | b :: rest, acc => scanLinesAux rest (b :: acc)

/-- Strip one trailing carriage return, as `bufio.ScanLines` does. -/
def dropTrailingCR (line : List Nat) : List Nat :=
  if line.getLast? = some 13 then line.dropLast else line

/-- Decode an ASCII byte as one character. -/
def bytesToString (bs : List Nat) : String :=
  ⟨bs.map Char.ofNat⟩

/-- The lines `bufio.Scanner` produces from a byte stream. -/
def linesOfBytes (bs : List Nat) : List String :=
  (scanLinesAux bs []).map fun l => bytesToString (dropTrailingCR l)

/-- `CalculateBoundingBox` (`stl.go` lines 55-72) on a clean byte
stream: read up to 80 header bytes, classify, and hand the selected
decoder the reconstructed stream `io.MultiReader(headerStr, r)` — the
consumed header bytes followed by the remainder of the input. -/
def CalculateBoundingBox (input : List Nat) : Except String BoundingBox :=
  match readHeader ⟨input, none⟩ with
  | Except.error e => Except.error e
  | Except.ok header =>
    if headerLooksAscii header then
      parseASCII (linesOfBytes (header ++ input.drop 80))
    else
      parseBinary (header ++ input.drop 80)

/-! ## Triangle folding (for the order-independence and invariant
claims) -/

/-- Fold one `Triangle` into the accumulator, as both decoders do via
`updateBoundingBox` with the triangle's three vertices. -/
def foldTriangle (bb : BoundingBox) (t : Triangle) : BoundingBox :=
  updateBoundingBox bb [t.Vertices.1, t.Vertices.2.1, t.Vertices.2.2]

/-- Fold a list of triangles in order. -/
def foldTriangles (bb : BoundingBox) (ts : List Triangle) : BoundingBox :=
  ts.foldl foldTriangle bb

/-! ## Concrete inputs used by the claims -/

/-- ASCII text to bytes (one byte per character). -/
def strToBytes (s : String) : List Nat := s.data.map Char.toNat

/-- Little-endian bytes of `1.0f` (bit pattern `0x3F800000`). -/
def f32one : List Nat := [0, 0, 128, 63]

/-- Little-endian bytes of `0.0f`. -/
def f32zero : List Nat := [0, 0, 0, 0]

/-- Little-endian bytes of `2 ^ -24` as a `float32` (bit pattern
`0x33800000`). -/
def f32eps : List Nat := [0, 0, 128, 51]

/-- The 48-byte geometry part of a binary record: normal `(0,0,1)` and
vertices `(0,0,0)`, `(1,0,0)`, `(0,1,0)`. -/
def triRecordC3 : List Nat :=
  (f32zero ++ f32zero ++ f32one) ++
  (f32zero ++ f32zero ++ f32zero) ++
  (f32one ++ f32zero ++ f32zero) ++
  (f32zero ++ f32one ++ f32zero)

/-- The synthetic binary file of the round-trip test: 80-byte zero
header, triangle count 1, the record above, zero attribute bytes. -/
def binC3 : List Nat :=
  List.replicate 80 0 ++ [1, 0, 0, 0] ++ triRecordC3 ++ [0, 0]

/-- The expected bounding box of that file. -/
def c3Box : BoundingBox := ⟨0, 0, 0, 1, 1, 0, ⟨1 / 2, 1 / 2, 0⟩⟩

/-- The equivalent ASCII file. -/
def asciiC4 : List Nat := strToBytes
  "solid s\nfacet normal 0 0 1\nouter loop\nvertex 0 0 0\nvertex 1 0 0\nvertex 0 1 0\nendloop\nendfacet\nendsolid s\n"

/-- A well-formed binary stream declaring zero triangles. -/
def binN0 : List Nat := List.replicate 80 0 ++ [0, 0, 0, 0]

/-- The box `parseBinary` returns for it: bounds still at the sentinel
values, center computed from them (`(maxFloat32 + -maxFloat32) / 2 = 0`
on every axis). -/
def sentinelBoxWithCenter : BoundingBox :=
  ⟨maxFloat32, maxFloat32, maxFloat32, -maxFloat32, -maxFloat32, -maxFloat32,
    ⟨0, 0, 0⟩⟩

/-- A binary stream whose one record has no attribute bytes after it:
header, count 1, then exactly the 48 geometry bytes. -/
def binShortAttr : List Nat :=
  List.replicate 80 0 ++ [1, 0, 0, 0] ++ triRecordC3

/-- A binary file with one triangle whose `x` bounds are `2 ^ -24` and
`1`: normal `(0,0,1)`, vertices `(2 ^ -24, 0, 0)`, `(1, 0, 0)`,
`(1, 1, 0)`. -/
def binC9 : List Nat :=
  List.replicate 80 0 ++ [1, 0, 0, 0] ++
  (f32zero ++ f32zero ++ f32one) ++
  (f32eps ++ f32zero ++ f32zero) ++
  (f32one ++ f32zero ++ f32zero) ++
  (f32one ++ f32one ++ f32zero) ++ [0, 0]

/-- ASCII lines in which a second `facet` line arrives while a facet
with one collected vertex `(5,5,5)` is still open. -/
def reentryLines : List String :=
  ["solid s", "facet normal 0 0 1", "vertex 5 5 5",
    "facet normal 0 0 1", "vertex 0 0 0", "vertex 1 0 0", "vertex 0 1 0",
    "endfacet", "endsolid s"]

/-- The same lines without the abandoned facet and its vertex. -/
def cleanLines : List String :=
  ["solid s",
    "facet normal 0 0 1", "vertex 0 0 0", "vertex 1 0 0", "vertex 0 1 0",
    "endfacet", "endsolid s"]

/-- The box `parseBinary` returns for `binC9`. -/
def c9Box : BoundingBox := ⟨1 / 16777216, 0, 0, 1, 1, 0, ⟨1 / 2, 1 / 2, 0⟩⟩

/-- A sample triangle (the one of `binC3`). -/
def t1ex : Triangle := ⟨⟨0, 0, 1⟩, (⟨0, 0, 0⟩, ⟨1, 0, 0⟩, ⟨0, 1, 0⟩)⟩

/-- A second sample triangle. -/
def t2ex : Triangle := ⟨⟨0, 0, 1⟩, (⟨2, 2, 2⟩, ⟨3, 3, 3⟩, ⟨4, 4, 4⟩)⟩

/-! ## Bit-level accumulator (signed zeros)

The ℚ model above is the *value* semantics of `float32`: it identifies
`-0.0` and `+0.0` (`f32val` maps both `0x00000000` and `0x80000000` to
`0`).  Bit-level identity of the accumulated bounds is finer than value
identity exactly there, so for the order-independence claim the
accumulator is also modelled at the bit-pattern level.  A bound is the
bit pattern (a `Nat < 2 ^ 32`) of a finite `float32`; IEEE-754
comparison of finite values is `f32val`-comparison of the patterns
(correct for every finite pattern, including `-0.0 < +0.0` being
false and `-0.0 == +0.0` being true; NaN/infinity stay outside the
modelled range).  A vertex coordinate is likewise a `float32` bit
pattern: in the Go code both decoders deliver `float64` coordinates
whose narrowing back to `float32` in `updateBoundingBox` restores that
exact pattern, sign of zero included. -/

/-- The six bound fields of `BoundingBox` as `float32` bit patterns. -/
structure BBoxBits where
  MinX : Nat
  MinY : Nat
  MinZ : Nat
  MaxX : Nat
  MaxY : Nat
  MaxZ : Nat
deriving DecidableEq, Repr

/-- The sentinel initialisation at bit level: `math.MaxFloat32` is
`0x7F7FFFFF` and `-math.MaxFloat32` is `0xFF7FFFFF`. -/
def initBBoxBits : BBoxBits :=
  ⟨0x7F7FFFFF, 0x7F7FFFFF, 0x7F7FFFFF, 0xFF7FFFFF, 0xFF7FFFFF, 0xFF7FFFFF⟩

/-- The loop body of `updateBoundingBox` (`stl.go` lines 212-234) at
bit level: the strict `<`/`>` comparisons are on the represented
values, the stored result is the vertex's bit pattern.  Because the
comparisons are strict, a bound equal in value to the vertex — in
particular a zero of the other sign — is never replaced. -/
def foldVertexBits (bb : BBoxBits) (v : Nat × Nat × Nat) : BBoxBits :=
  { MinX := if f32val v.1 < f32val bb.MinX then v.1 else bb.MinX,
    MinY := if f32val v.2.1 < f32val bb.MinY then v.2.1 else bb.MinY,
    MinZ := if f32val v.2.2 < f32val bb.MinZ then v.2.2 else bb.MinZ,
    MaxX := if f32val v.1 > f32val bb.MaxX then v.1 else bb.MaxX,
    MaxY := if f32val v.2.1 > f32val bb.MaxY then v.2.1 else bb.MaxY,
    MaxZ := if f32val v.2.2 > f32val bb.MaxZ then v.2.2 else bb.MaxZ }

/-- Go `Triangle` at bit level: the normal and the three vertices as
triples of `float32` bit patterns. -/
structure TriangleBits where
  Normal : Nat × Nat × Nat
  Vertices : (Nat × Nat × Nat) × (Nat × Nat × Nat) × (Nat × Nat × Nat)
deriving DecidableEq, Repr

/-- Fold one bit-level triangle (its three vertices in order), as
`updateBoundingBox` does. -/
def foldTriangleBits (bb : BBoxBits) (t : TriangleBits) : BBoxBits :=
  [t.Vertices.1, t.Vertices.2.1, t.Vertices.2.2].foldl foldVertexBits bb

/-- Fold a list of bit-level triangles in order.  `setCenter` preserves
the six bound fields, so the finalized box carries these exact bit
patterns. -/
def foldTrianglesBits (bb : BBoxBits) (ts : List TriangleBits) : BBoxBits :=
  ts.foldl foldTriangleBits bb

/-- A triangle whose first vertex has `x = +0.0` (pattern
`0x00000000`); the other coordinates are `+0.0` and `1.0`. -/
def tbPosZero : TriangleBits :=
  ⟨(0, 0, 0x3F800000),
    ((0, 0, 0), (0x3F800000, 0, 0), (0, 0x3F800000, 0))⟩

/-- The same triangle with the first vertex's `x = -0.0` (pattern
`0x80000000`). -/
def tbNegZero : TriangleBits :=
  ⟨(0, 0, 0x3F800000),
    ((0x80000000, 0, 0), (0x3F800000, 0, 0), (0, 0x3F800000, 0))⟩

/-! ## Helper lemmas about the accumulator -/

theorem ite_lt_eq_min (x m : ℚ) : (if x < m then x else m) = min x m := by
  rw [min_def]
  split_ifs with h1 h2 h2 <;> linarith

theorem ite_gt_eq_max (x m : ℚ) : (if x > m then x else m) = max x m := by
  rw [max_def]
  split_ifs with h1 h2 h2 <;> linarith

/-- `foldVertex` is componentwise `min`/`max` against the rounded
coordinates. -/
theorem foldVertex_minmax (bb : BoundingBox) (v : Vec3) :
    foldVertex bb v =
      { bb with
        MinX := min (roundF32 v.X) bb.MinX,
        MinY := min (roundF32 v.Y) bb.MinY,
        MinZ := min (roundF32 v.Z) bb.MinZ,
        MaxX := max (roundF32 v.X) bb.MaxX,
        MaxY := max (roundF32 v.Y) bb.MaxY,
        MaxZ := max (roundF32 v.Z) bb.MaxZ } := by
  simp only [foldVertex, ite_lt_eq_min, ite_gt_eq_max]

/-- Folding two vertices commutes. -/
theorem foldVertex_rcomm (bb : BoundingBox) (u v : Vec3) :
    foldVertex (foldVertex bb u) v = foldVertex (foldVertex bb v) u := by
  simp only [foldVertex_minmax]
  exact BoundingBox.mk.injEq .. ▸ by
    simp [min_left_comm, max_left_comm]

/-- A vertex fold commutes past a triangle fold. -/
theorem foldVertex_foldTriangle_comm (bb : BoundingBox) (t : Triangle) (v : Vec3) :
    foldVertex (foldTriangle bb t) v = foldTriangle (foldVertex bb v) t := by
  simp only [foldTriangle, updateBoundingBox, List.foldl]
  rw [foldVertex_rcomm (foldVertex (foldVertex bb t.Vertices.1) t.Vertices.2.1) t.Vertices.2.2 v,
    foldVertex_rcomm (foldVertex bb t.Vertices.1) t.Vertices.2.1 v,
    foldVertex_rcomm bb t.Vertices.1 v]

/-- Folding two triangles commutes. -/
theorem foldTriangle_rcomm (bb : BoundingBox) (t u : Triangle) :
    foldTriangle (foldTriangle bb t) u = foldTriangle (foldTriangle bb u) t := by
  show foldVertex (foldVertex (foldVertex (foldTriangle bb t) u.Vertices.1)
    u.Vertices.2.1) u.Vertices.2.2 = foldTriangle (foldTriangle bb u) t
  rw [foldVertex_foldTriangle_comm, foldVertex_foldTriangle_comm,
    foldVertex_foldTriangle_comm]
  rfl

/-- After folding any single vertex the box brackets that vertex, so
`Min ≤ Max` holds on every axis whatever the previous state was. -/
theorem foldVertex_minLeMax (bb : BoundingBox) (v : Vec3) :
    (foldVertex bb v).MinX ≤ (foldVertex bb v).MaxX ∧
    (foldVertex bb v).MinY ≤ (foldVertex bb v).MaxY ∧
    (foldVertex bb v).MinZ ≤ (foldVertex bb v).MaxZ := by
  rw [foldVertex_minmax]
  refine ⟨?_, ?_, ?_⟩ <;>
    exact le_trans (min_le_left _ _) (le_max_left _ _)

/-- A triangle fold ends in a vertex fold, so it establishes
`Min ≤ Max` on every axis unconditionally. -/
theorem foldTriangle_minLeMax (bb : BoundingBox) (t : Triangle) :
    (foldTriangle bb t).MinX ≤ (foldTriangle bb t).MaxX ∧
    (foldTriangle bb t).MinY ≤ (foldTriangle bb t).MaxY ∧
    (foldTriangle bb t).MinZ ≤ (foldTriangle bb t).MaxZ :=
  foldVertex_minLeMax _ _

/-- Folding a non-empty triangle list establishes `Min ≤ Max` on every
axis. -/
theorem foldTriangles_minLeMax (ts : List Triangle) (bb : BoundingBox)
    (h : ts ≠ []) :
    (foldTriangles bb ts).MinX ≤ (foldTriangles bb ts).MaxX ∧
    (foldTriangles bb ts).MinY ≤ (foldTriangles bb ts).MaxY ∧
    (foldTriangles bb ts).MinZ ≤ (foldTriangles bb ts).MaxZ := by
  induction ts generalizing bb with
  | nil => exact absurd rfl h
  | cons t ts ih =>
    cases ts with
    | nil => exact foldTriangle_minLeMax bb t
    | cons u us => exact ih (foldTriangle bb t) (by simp)

/-! ## Claim C1 -/

set_option maxRecDepth 10000 in
/-- C1, counterexample: for the well-formed binary stream `binN0`
(80-byte header, declared triangle count 0), `CalculateBoundingBox`
does not fail with the no-triangles error: it returns a bounding box
whose bounds are still at the sentinel values `±math.MaxFloat32`. -/
theorem c1_counterexample :
    CalculateBoundingBox binN0 = Except.ok sentinelBoxWithCenter ∧
    sentinelBoxWithCenter.MinX = maxFloat32 ∧
    sentinelBoxWithCenter.MaxX = -maxFloat32 :=
  ⟨by with_unfolding_all rfl, rfl, rfl⟩

set_option maxRecDepth 10000 in
/-- C1, amended: only the ASCII decoder has the emptiness check — if
the scan succeeds with `MinX` still at the sentinel (in particular
whenever no triangle was folded), `parseASCII` fails with the explicit
no-triangles error; the binary decoder has no such check, and a binary
stream with declared count 0 returns the box with sentinel bounds. -/
theorem c1_amended :
    (∀ lines st, asciiScan lines = Except.ok st → st.bbox.MinX = maxFloat32 →
      parseASCII lines = Except.error "no triangles found in STL file") ∧
    parseBinary binN0 = Except.ok sentinelBoxWithCenter := by
  constructor
  · intro lines st h hmin
    simp [parseASCII, h, hmin]
  · with_unfolding_all rfl

set_option maxRecDepth 10000 in
/-- C1, witness: the empty ASCII solid (`solid s` / `endsolid s`)
scans to the initial state and is rejected with the no-triangles
error. -/
theorem c1_witness :
    asciiScan ["solid s", "endsolid s"] = Except.ok initAsciiState ∧
    parseASCII ["solid s", "endsolid s"] =
      Except.error "no triangles found in STL file" :=
  ⟨by with_unfolding_all rfl,
    c1_amended.1 _ initAsciiState (by with_unfolding_all rfl) rfl⟩

/-! ## Claim C2 -/

set_option maxRecDepth 10000 in
/-- C2, counterexample: for the binary stream `binShortAttr` (header,
count 1, a full 48-byte geometry record, but no attribute bytes) the
decode aborts on the attribute field, yet the accumulator state at the
abort already contains the folded triangle (`MinX` moved from the
sentinel to `0`), so the abort does not happen before mutating the
accumulator for that record; moreover the attribute-field error message
is the same for any triangle index (index 0 and index 5 produce the
identical message), so that short read is not reported with the
triangle index included. -/
theorem c2_counterexample :
    parseBinary binShortAttr =
      Except.error "error reading attribute byte count: EOF" ∧
    (binLoop 0 1 triRecordC3 initBBox).1.MinX = 0 ∧
    initBBox.MinX = maxFloat32 ∧
    (binLoop 0 1 triRecordC3 initBBox).2 = (binLoop 5 1 triRecordC3 initBBox).2 :=
  ⟨by with_unfolding_all rfl, by with_unfolding_all rfl, rfl,
    by with_unfolding_all rfl⟩

/-- C2, amended: in the binary loop, a short read of the 48-byte
geometry record is all-or-nothing — the accumulator is returned
unchanged and the error names the triangle index; but the triangle is
folded *before* the 2-byte attribute field is read, so a short read on
the attribute field aborts with the record already folded into the
accumulator, and its error message names the attribute field without
the triangle index.  (In either case `parseBinary` returns only the
error, never a box.) -/
theorem c2_amended :
    (∀ (i r : Nat) (bytes : List Nat) (bb : BoundingBox), bytes.length < 48 →
      binLoop i (r + 1) bytes bb =
        (bb, some ("error reading triangle " ++ Nat.repr i ++ ": " ++
          eofMsg bytes.length))) ∧
    (∀ (i r : Nat) (bytes : List Nat) (bb : BoundingBox),
      48 ≤ bytes.length → bytes.length < 50 →
      binLoop i (r + 1) bytes bb =
        (updateBoundingBox bb (binVertices (bytes.take 48)),
          some ("error reading attribute byte count: " ++
            eofMsg (bytes.length - 48)))) := by
  constructor
  · intro i r bytes bb h
    simp [binLoop, h]
  · intro i r bytes bb h1 h2
    have hlt : ¬ bytes.length < 48 := not_lt.mpr h1
    have hdrop : (bytes.drop 48).length < 2 := by
      rw [List.length_drop]; omega
    simp only [binLoop, hlt, if_false, hdrop, List.length_drop, if_true]
    split_ifs with hc
    · rfl
    · exact absurd (by omega : (List.drop 48 bytes).length < 2) (by simpa using hc)

/-- C2, witness: a record read with no bytes available aborts without
mutation and reports triangle index 3; a record with geometry but no
attribute bytes is folded before the abort. -/
theorem c2_witness :
    binLoop 3 1 [] initBBox =
      (initBBox, some ("error reading triangle " ++ Nat.repr 3 ++ ": " ++
        eofMsg 0)) ∧
    binLoop 0 1 triRecordC3 initBBox =
      (updateBoundingBox initBBox (binVertices (triRecordC3.take 48)),
        some ("error reading attribute byte count: " ++ eofMsg 0)) :=
  ⟨c2_amended.1 3 0 [] initBBox (by decide),
    c2_amended.2 0 0 triRecordC3 initBBox (by decide) (by decide)⟩

/-! ## Claim C3 -/

set_option maxRecDepth 10000 in
/-- C3: for the synthetic binary file `binC3` (header, count 1, one
triangle with normal `(0,0,1)` and vertices `(0,0,0)`, `(1,0,0)`,
`(0,1,0)`), `CalculateBoundingBox` returns Min `(0,0,0)`, Max
`(1,1,0)`, Center `(1/2,1/2,0)`, with `Dimensions` `(1,1,0)` and
`Volume` `0`. -/
theorem c3_binary_roundtrip :
    CalculateBoundingBox binC3 = Except.ok c3Box ∧
    c3Box.Dimensions = (1, 1, 0) ∧ c3Box.Volume = 0 :=
  ⟨by with_unfolding_all rfl, by with_unfolding_all rfl,
    by with_unfolding_all rfl⟩

/-! ## Claim C4 -/

set_option maxRecDepth 10000 in
/-- C4: the equivalent ASCII file `asciiC4` (`solid s` / `facet normal
0 0 1` / `outer loop` / the three `vertex` lines / `endloop` /
`endfacet` / `endsolid s`) produces a result bit-identical to the
binary file `binC3` — the same `BoundingBox` value, hence identical
bounds, center, dimensions and volume. -/
theorem c4_ascii_binary_identical :
    CalculateBoundingBox asciiC4 = CalculateBoundingBox binC3 ∧
    CalculateBoundingBox asciiC4 = Except.ok c3Box :=
  ⟨by with_unfolding_all rfl, by with_unfolding_all rfl⟩

/-! ## Claim C5 -/

set_option maxRecDepth 10000 in
/-- C5, counterexample: bit-identity under permutation fails.  The two
triangles `tbPosZero` and `tbNegZero` differ only in the sign of one
zero `x` coordinate — the two patterns represent the *same* value
(`f32val 0x00000000 = f32val 0x80000000`, last conjunct) — yet folding
the permuted lists `[tbPosZero, tbNegZero]` and
`[tbNegZero, tbPosZero]` into the sentinel accumulator leaves `MinX` at
the bit pattern of whichever zero was folded first (`0x00000000`
vs `0x80000000`): the strict `<` never replaces an equal-valued bound,
so the finalized boxes are not bit-identical. -/
theorem c5_counterexample :
    List.Perm [tbPosZero, tbNegZero] [tbNegZero, tbPosZero] ∧
    (foldTrianglesBits initBBoxBits [tbPosZero, tbNegZero]).MinX = 0x00000000 ∧
    (foldTrianglesBits initBBoxBits [tbNegZero, tbPosZero]).MinX = 0x80000000 ∧
    foldTrianglesBits initBBoxBits [tbPosZero, tbNegZero] ≠
      foldTrianglesBits initBBoxBits [tbNegZero, tbPosZero] ∧
    f32val 0x00000000 = f32val 0x80000000 :=
  ⟨List.Perm.swap tbNegZero tbPosZero [], by with_unfolding_all rfl,
    by with_unfolding_all rfl, by with_unfolding_all decide,
    by with_unfolding_all rfl⟩

/-- C5, amended: folding any permutation of a list of triangles into
the sentinel-initialised accumulator and finalizing yields a bounding
box with identical *values* on every bound — min/max accumulation is
order independent at value level (and hence bit-identical whenever no
bound ends at a zero whose sign differs between orders; with both
`-0.0` and `+0.0` present on an axis the resulting zero bound keeps the
first-seen sign, as the counterexample shows). -/
theorem c5_order_independence (l₁ l₂ : List Triangle) (h : l₁.Perm l₂) :
    setCenter (foldTriangles initBBox l₁) = setCenter (foldTriangles initBBox l₂) := by
  unfold foldTriangles
  rw [h.foldl_eq' (fun x _ y _ z => foldTriangle_rcomm z x y) initBBox]

/-- C5, witness: the two orders of a concrete two-triangle set finalize
to the same box. -/
theorem c5_witness :
    List.Perm [t1ex, t2ex] [t2ex, t1ex] ∧
    setCenter (foldTriangles initBBox [t1ex, t2ex]) =
      setCenter (foldTriangles initBBox [t2ex, t1ex]) :=
  ⟨List.Perm.swap t2ex t1ex [], c5_order_independence _ _ (List.Perm.swap t2ex t1ex [])⟩

/-! ## Claim C6 -/

/-- C6: after folding a non-empty triangle list from the
sentinel-initialised accumulator and finalizing, the box satisfies
`Min ≤ Max` on every axis. -/
theorem c6_min_le_max (ts : List Triangle) (h : ts ≠ []) :
    (setCenter (foldTriangles initBBox ts)).MinX ≤
      (setCenter (foldTriangles initBBox ts)).MaxX ∧
    (setCenter (foldTriangles initBBox ts)).MinY ≤
      (setCenter (foldTriangles initBBox ts)).MaxY ∧
    (setCenter (foldTriangles initBBox ts)).MinZ ≤
      (setCenter (foldTriangles initBBox ts)).MaxZ := by
  simpa [setCenter] using foldTriangles_minLeMax ts initBBox h

/-- C6, witness: the invariant at the concrete one-triangle list. -/
theorem c6_witness :
    ([t1ex] : List Triangle) ≠ [] ∧
    ((setCenter (foldTriangles initBBox [t1ex])).MinX ≤
      (setCenter (foldTriangles initBBox [t1ex])).MaxX ∧
    (setCenter (foldTriangles initBBox [t1ex])).MinY ≤
      (setCenter (foldTriangles initBBox [t1ex])).MaxY ∧
    (setCenter (foldTriangles initBBox [t1ex])).MinZ ≤
      (setCenter (foldTriangles initBBox [t1ex])).MaxZ) :=
  ⟨by simp, c6_min_le_max [t1ex] (by simp)⟩

/-! ## Claim C7 -/

/-- C7, counterexample: for the empty stream the header read is an
error — `io.ReadFull` returns `io.EOF` (not `io.ErrUnexpectedEOF`)
when nothing at all could be read, and `CalculateBoundingBox` only
tolerates the latter, so the empty input fails at the sniffing stage
rather than being permitted. -/
theorem c7_counterexample :
    readHeader ⟨[], none⟩ = Except.error ("error reading header: " ++ "EOF") ∧
    CalculateBoundingBox [] = Except.error ("error reading header: " ++ "EOF") :=
  ⟨rfl, rfl⟩

/-- C7, amended: the sniffing read of the first 80 bytes permits an
input that ends early after at least one byte (clean short read), while
the completely empty stream fails with the wrapped `EOF`, and an
underlying stream error other than clean end-of-input before 80 bytes
is surfaced as a header read error. -/
theorem c7_amended :
    (∀ s : ByteStream, s.err = none → s.bytes ≠ [] →
      ∃ h, readHeader s = Except.ok h) ∧
    (∀ (s : ByteStream) (e : String), s.err = some e → s.bytes.length < 80 →
      readHeader s = Except.error ("error reading header: " ++ e)) := by
  constructor
  · intro s herr hne
    by_cases h80 : 80 ≤ s.bytes.length
    · exact ⟨s.bytes.take 80, by simp [readHeader, h80]⟩
    · refine ⟨s.bytes, ?_⟩
      have h0 : ¬ s.bytes.length = 0 := by
        simpa [List.length_eq_zero] using hne
      simp [readHeader, h80, herr, h0]
  · intro s e herr hlen
    have h80 : ¬ 80 ≤ s.bytes.length := by omega
    simp [readHeader, h80, herr]

/-- C7, witness: a one-byte clean stream is permitted; a stream that
errors before 80 bytes surfaces that error. -/
theorem c7_witness :
    (∃ h, readHeader ⟨[7], none⟩ = Except.ok h) ∧
    readHeader ⟨[], some "read failure"⟩ =
      Except.error ("error reading header: " ++ "read failure") :=
  ⟨c7_amended.1 ⟨[7], none⟩ rfl (by simp),
    c7_amended.2 ⟨[], some "read failure"⟩ "read failure" rfl (by simp)⟩

/-! ## Claim C8 -/

/-- C8: the stream handed to the selected decoder is byte-for-byte the
original stream (the consumed header bytes followed by the remainder),
and `CalculateBoundingBox` selects the ASCII decoder exactly when the
bytes read, trimmed of whitespace, begin with the literal `solid`,
selecting the binary decoder otherwise. -/
theorem c8_sniffer (input : List Nat) :
    input.take 80 ++ input.drop 80 = input ∧
    CalculateBoundingBox input =
      (if headerLooksAscii (input.take 80) then
        parseASCII (linesOfBytes (input.take 80 ++ input.drop 80))
      else parseBinary (input.take 80 ++ input.drop 80)) := by
  refine ⟨List.take_append_drop 80 input, ?_⟩
  unfold CalculateBoundingBox readHeader
  by_cases h80 : 80 ≤ input.length
  · simp [h80]
  · by_cases h0 : input.length = 0
    · have : input = [] := List.length_eq_zero.mp h0
      subst this
      rfl
    · have htake : input.take 80 = input := List.take_of_length_le (by omega)
      have hdrop : input.drop 80 = [] := List.drop_eq_nil_of_le (by omega)
      simp [h80, h0, htake, hdrop]

/-! ## Claim C9 -/

set_option maxRecDepth 10000 in
/-- C9, counterexample: for the binary file `binC9` (x-bounds
`2 ^ -24` and `1`), the returned `Center.X` is `1/2` — the value of
`(MinX + MaxX) / 2` computed in single precision — whereas computing
`(MinX + MaxX) / 2` at full double precision from the same
single-precision bounds gives `1/2 + 2 ^ -25`, so the Center is not the
full-precision midpoint. -/
theorem c9_counterexample :
    parseBinary binC9 = Except.ok c9Box ∧
    c9Box.Center.X = 1 / 2 ∧
    roundF64 (roundF64 (c9Box.MinX + c9Box.MaxX) / 2) = 1 / 2 + qpow2 (-25) ∧
    c9Box.Center.X ≠ roundF64 (roundF64 (c9Box.MinX + c9Box.MaxX) / 2) :=
  ⟨by with_unfolding_all rfl, rfl, by with_unfolding_all rfl,
    by with_unfolding_all decide⟩

/-- C9, amended: after a successful parse (either decoder) the Center
equals `((MinX+MaxX)/2, (MinY+MaxY)/2, (MinZ+MaxZ)/2)` computed in
*single* precision from the single-precision bounds (one `float32`
addition and one `float32` halving per axis), then widened exactly to
double. -/
theorem c9_amended :
    (∀ (input : List Nat) (b : BoundingBox), parseBinary input = Except.ok b →
      b.Center = ⟨roundF32 (roundF32 (b.MinX + b.MaxX) / 2),
        roundF32 (roundF32 (b.MinY + b.MaxY) / 2),
        roundF32 (roundF32 (b.MinZ + b.MaxZ) / 2)⟩) ∧
    (∀ (lines : List String) (b : BoundingBox), parseASCII lines = Except.ok b →
      b.Center = ⟨roundF32 (roundF32 (b.MinX + b.MaxX) / 2),
        roundF32 (roundF32 (b.MinY + b.MaxY) / 2),
        roundF32 (roundF32 (b.MinZ + b.MaxZ) / 2)⟩) := by
  constructor
  · intro input b h
    unfold parseBinary at h
    dsimp only at h
    split at h
    · exact absurd h (by simp)
    · split at h
      · exact absurd h (by simp)
      · split at h
        · exact absurd h (by simp)
        · cases h
          rfl
  · intro lines b h
    unfold parseASCII at h
    split at h
    · exact absurd h (by simp)
    · split at h
      · exact absurd h (by simp)
      · cases h
        rfl

set_option maxRecDepth 10000 in
/-- C9, witness: the center relation at the concrete binary file
`binC3`. -/
theorem c9_witness :
    c3Box.Center = ⟨roundF32 (roundF32 (c3Box.MinX + c3Box.MaxX) / 2),
      roundF32 (roundF32 (c3Box.MinY + c3Box.MaxY) / 2),
      roundF32 (roundF32 (c3Box.MinZ + c3Box.MaxZ) / 2)⟩ :=
  c9_amended.1 binC3 c3Box (by with_unfolding_all rfl)

/-! ## Claim C10 -/

/-- C10: a `facet` line arriving while a facet is already open is not
an error: the scanner silently re-enters the in-facet state with the
vertex count reset to 0 and the accumulator untouched; consequently the
vertices collected for the unfinished facet are never folded — on the
concrete re-entry input the result is identical to the input without
the abandoned facet, and equals the box of the second facet's triangle
alone. -/
theorem c10_facet_reentry :
    (∀ (st : AsciiState) (line : String), st.inFacet = true →
      (goFields (goTrimSpace line)).head? = some "facet" →
      asciiStep st line = Except.ok { st with inFacet := true, vertexIndex := 0 }) ∧
    parseASCII reentryLines = parseASCII cleanLines ∧
    parseASCII reentryLines = Except.ok c3Box := by
  refine ⟨?_, by with_unfolding_all rfl, by with_unfolding_all rfl⟩
  intro st line _hin hf
  simp only [asciiStep]
  rw [hf]
  simp

set_option maxRecDepth 10000 in
/-- C10, witness: the step behaviour at a concrete open-facet state and
a concrete `facet` line. -/
theorem c10_witness :
    ({ initAsciiState with inFacet := true, vertexIndex := 2 } : AsciiState).inFacet = true ∧
    (goFields (goTrimSpace "facet normal 0 0 1")).head? = some "facet" ∧
    asciiStep { initAsciiState with inFacet := true, vertexIndex := 2 } "facet normal 0 0 1" =
      Except.ok { initAsciiState with inFacet := true, vertexIndex := 0 } :=
  ⟨rfl, by with_unfolding_all rfl,
    c10_facet_reentry.1 { initAsciiState with inFacet := true, vertexIndex := 2 }
      "facet normal 0 0 1" rfl (by with_unfolding_all rfl)⟩
